import Mathlib

/-!
Shallow embedding of the `cassandra_reaper_api` client
(`src/cassandra_reaper_api/__init__.py`): the authenticated-session request
layer of the `CassandraReaper` class (login, token storage, the
`__auth_req` single-retry wrapper, the `__check_req` response classifier,
the five private verb helpers) together with the facade operations the
claims cite (`get_repairs`, `get_schedules`, `create_cluster_snapshot`,
`get_repair` / `delete_repair`, `get_schedule` / `delete_schedule`,
`update_password`).

The HTTP transport (`requests.session()`) is modelled as a script: a list
of `Response` values consumed one per transport call, plus a log of every
outgoing request (`SentRequest`), so that properties about outgoing
headers, bodies, query parameters and send counts are statable.  Python
exceptions become `Except Err`; state mutation is threaded explicitly, and
a raised error still returns the mutated state (as Python exceptions leave
mutations in place).
-/

namespace CassandraReaperApi

/-- Primitive JSON / parameter values (Python passes strings, bools and
numbers to `requests`).  Numbers are modelled as integers; no claim
involves float arithmetic. -/
inductive Prim where
  | null
  | bool (b : Bool)
  | num (n : Int)
  | str (s : String)
deriving DecidableEq, Repr

/-- Decoded JSON bodies, to the depth the client inspects them: a
primitive, an array of primitives, or an object with primitive fields
(`delete_repair` / `delete_schedule` only ever read one string field of a
decoded object; no claim needs deeper nesting). -/
inductive Json where
  | prim (p : Prim)
  | arr (elems : List Prim)
  | obj (fields : List (String × Prim))
deriving DecidableEq, Repr

/-- An HTTP response as delivered by the transport (`requests.Response`).
`jsonVal` is the transport-supplied result of JSON-decoding `text`
(`none` models a body that `.json()` fails to decode). -/
structure Response where
  status_code : Nat
  text : String
  url : String
  jsonVal : Option Json
deriving DecidableEq, Repr

/-- `requests.Response.ok`: true iff `raise_for_status()` would not raise,
i.e. the status code is outside the 400–599 client/server error range. -/
def Response.ok (r : Response) : Bool :=
  decide (r.status_code < 400) || decide (600 ≤ r.status_code)

/-- Error taxonomy: `authError` is the library's `AuthError`, `httpError`
is `requests.exceptions.HTTPError`; `transport` models a
connection/timeout fault (script exhausted); `jsonError` a `.json()`
decode failure; `keyError` a missing dict key. -/
inductive Err where
  | authError (msg : String)
  | httpError (msg : String)
  | transport
  | jsonError
  | keyError (k : String)
deriving DecidableEq, Repr

/-- The diagnostic message `__check_req` builds from a failed response. -/
def check_msg (r : Response) : String :=
  "URL: " ++ r.url ++ ", Status: " ++ toString r.status_code ++ ", Text: " ++ r.text

/-- `CassandraReaper.__check_req`: raises `AuthError` on 403/498/499,
`HTTPError` on any other not-ok status, and returns normally otherwise. -/
def check_req (r : Response) : Except Err Unit :=
  if !r.ok then
    let msg := check_msg r
    if r.status_code = 403 ∨ r.status_code = 498 ∨ r.status_code = 499 then
      Except.error (Err.authError msg)
    else
      Except.error (Err.httpError msg)
  else
    Except.ok ()

/-- The three-way response classification derived from `__check_req`. -/
inductive Classification where
  | ok
  | authExpired
  | httpError
deriving DecidableEq, Repr

/-- Classify a response by what `__check_req` does with it. -/
def classify (r : Response) : Classification :=
  match check_req r with
  | Except.ok _ => Classification.ok
  | Except.error (Err.authError _) => Classification.authExpired
  | _ => Classification.httpError

/-- The classification as the spec's words state it (`spec.md` §4.1,
"Response classification"): 200–299 → Ok, {403,498,499} → AuthExpired,
any other non-2xx → HttpError.  Kept separate from `classify` (which
follows the source) so the two can be compared. -/
def spec_classify (status : Nat) : Classification :=
  if 200 ≤ status ∧ status ≤ 299 then Classification.ok
  else if status = 403 ∨ status = 498 ∨ status = 499 then Classification.authExpired
  else Classification.httpError

/-- HTTP verbs used by the client. -/
inductive Verb where
  | get
  | put
  | post
  | patch
  | delete
deriving DecidableEq, Repr

/-- The body of an outgoing request: none (no `data=`/`json=` keyword, as
in `__get` and `__delete`), form-encoded fields (`data=` keyword, as in
`__post`/`__put` and the login POST), or a JSON body (`json=` keyword, as
in `__patch`). -/
inductive Body where
  | none
  | form (fields : List (String × Prim))
  | json (fields : List (String × Prim))
deriving DecidableEq, Repr

/-- A request as handed to the transport: verb, resolved URL, the
session's headers at send time, query parameters, body and per-call
timeout (`none` = no timeout keyword, as in the two login-layer calls). -/
structure SentRequest where
  verb : Verb
  url : String
  headers : List (String × String)
  params : List (String × Prim)
  body : Body
  timeout : Option Nat
deriving DecidableEq, Repr

/-- Full state of one `CassandraReaper` instance together with its
transport: the session fields of `__init__`, the script of responses the
transport will deliver (consumed in order), the log of requests actually
sent, and a count of `login()` invocations. -/
structure St where
  url : String
  user : String
  password : String
  verify : Bool
  token : String
  headers : List (String × String)
  script : List Response
  sent : List SentRequest
  loginCalls : Nat
deriving DecidableEq, Repr

/-- Association-list lookup (Python dict read). -/
def lookupKey {α : Type} (l : List (String × α)) (k : String) : Option α :=
  (l.find? (fun p => p.1 = k)).map (fun p => p.2)

/-- Python `dict.update` on the session headers: replace the value of an
existing key, else append the pair. -/
def headersUpdate (hs : List (String × String)) (k v : String) :
    List (String × String) :=
  if hs.any (fun p => p.1 = k) then
    hs.map (fun p => if p.1 = k then (k, v) else p)
  else
    hs ++ [(k, v)]

/-- Model of `requests.compat.urljoin` (`urllib.parse.urljoin`), an
external dependency, restricted to the URL shapes this client builds: a
path starting with `/` is resolved against the host part of the base,
any other relative path replaces the last segment of the base's path. -/
def urljoin (base url : String) : String :=
  if url.startsWith "/" then
    match base.splitOn "://" with
    | scheme :: rest :: _ =>
      scheme ++ "://" ++ ((rest.splitOn "/").headD "") ++ url
    | _ => url
  else
    match base.splitOn "://" with
    | scheme :: rest :: _ =>
      let segs := rest.splitOn "/"
      scheme ++ "://" ++ String.intercalate "/" (segs.dropLast ++ [url])
    | _ => url

/-- One transport call: the request (carrying the current session
headers) is logged, then the next scripted response is delivered; an
exhausted script models a connection/timeout fault. -/
def send (v : Verb) (url : String) (params : List (String × Prim))
    (body : Body) (timeout : Option Nat) (st : St) :
    Except Err Response × St :=
  let sr : SentRequest :=
    { verb := v, url := url, headers := st.headers, params := params,
      body := body, timeout := timeout }
  let st1 := { st with sent := st.sent ++ [sr] }
  match st1.script with
  | [] => (Except.error Err.transport, st1)
  | r :: rest => (Except.ok r, { st1 with script := rest })

/-- `CassandraReaper.login`: form POST to `{url}/login` with the
credentials, validate, GET `{url}/jwt`, validate, then store the jwt
body text as the token and set the session's Authorization header.
`loginCalls` counts invocations of this function. -/
def login (st0 : St) : Except Err Unit × St :=
  let st := { st0 with loginCalls := st0.loginCalls + 1 }
  let data : List (String × Prim) :=
    [("username", Prim.str st.user), ("password", Prim.str st.password),
     ("rememberMe", Prim.bool false)]
  match send Verb.post (urljoin st.url "login") [] (Body.form data) none st with
  | (Except.error e, st1) => (Except.error e, st1)
  | (Except.ok login_req, st1) =>
    match check_req login_req with
    | Except.error e => (Except.error e, st1)
    | Except.ok _ =>
      match send Verb.get (urljoin st1.url "jwt") [] Body.none none st1 with
      | (Except.error e, st2) => (Except.error e, st2)
      | (Except.ok jwt_req, st2) =>
        match check_req jwt_req with
        | Except.error e => (Except.error e, st2)
        | Except.ok _ =>
          let st3 := { st2 with
            token := jwt_req.text,
            headers := headersUpdate st2.headers "Authorization"
              ("Bearer " ++ jwt_req.text) }
          (Except.ok (), st3)

/-- The shared body of the five private verb helpers (`__get`, `__put`,
`__post`, `__patch`, `__delete` before decoration): resolve the path
against the base URL, send, validate with `__check_req`, return the
response. -/
def raw_req (v : Verb) (query : String) (params : List (String × Prim))
    (body : Body) (timeout : Nat) (st : St) : Except Err Response × St :=
  let url := urljoin st.url query
  match send v url params body (some timeout) st with
  | (Except.error e, st1) => (Except.error e, st1)
  | (Except.ok req, st1) =>
    match check_req req with
    | Except.error e => (Except.error e, st1)
    | Except.ok _ => (Except.ok req, st1)

/-- The `__auth_req` decorator: run the wrapped call; if it raises
`AuthError`, call `login()` and run the identical call once more; every
other outcome (success, `HTTPError`, transport fault, a failure of
`login` itself, or a second failure of the re-issued call) passes
through unchanged. -/
def authReq (f : St → Except Err Response × St) (st : St) :
    Except Err Response × St :=
  match f st with
  | (Except.error (Err.authError _), st1) =>
    (match login st1 with
     | (Except.error e, st2) => (Except.error e, st2)
     | (Except.ok _, st2) => f st2)
  | r => r

/-- `__get` (decorated with `__auth_req`). -/
def priv_get (query : String) (params : List (String × Prim))
    (timeout : Nat) : St → Except Err Response × St :=
  authReq (raw_req Verb.get query params Body.none timeout)

/-- `__delete` (decorated): note it takes no body argument at all. -/
def priv_delete (query : String) (params : List (String × Prim))
    (timeout : Nat) : St → Except Err Response × St :=
  authReq (raw_req Verb.delete query params Body.none timeout)

/-- `__post` (decorated): payload goes out as a form body (`data=`). -/
def priv_post (query : String) (params : List (String × Prim))
    (data : List (String × Prim)) (timeout : Nat) :
    St → Except Err Response × St :=
  authReq (raw_req Verb.post query params (Body.form data) timeout)

/-- `__put` (decorated): payload goes out as a form body (`data=`). -/
def priv_put (query : String) (params : List (String × Prim))
    (data : List (String × Prim)) (timeout : Nat) :
    St → Except Err Response × St :=
  authReq (raw_req Verb.put query params (Body.form data) timeout)

/-- `__patch` (decorated): payload goes out as a JSON body (`json=`). -/
def priv_patch (query : String) (params : List (String × Prim))
    (j : List (String × Prim)) (timeout : Nat) :
    St → Except Err Response × St :=
  authReq (raw_req Verb.patch query params (Body.json j) timeout)

/-- `CassandraReaper.__init__`: store the connection fields, start with an
empty token and no Authorization header, and log in immediately unless
`login=False` was passed. -/
def init (url user password : String) (verify_ssl : Bool) (doLogin : Bool)
    (script : List Response) : Except Err Unit × St :=
  let st : St :=
    { url := url, user := user, password := password, verify := verify_ssl,
      token := "", headers := [], script := script, sent := [],
      loginCalls := 0 }
  if doLogin then login st else (Except.ok (), st)

/-- `update_password`: overwrite the stored password, nothing else. -/
def update_password (new_password : String) (st : St) : St :=
  { st with password := new_password }

/-- `Response.json()`: the decoded body, raising on a body that does not
decode. -/
def Response.json (r : Response) : Except Err Json :=
  match r.jsonVal with
  | some j => Except.ok j
  | none => Except.error Err.jsonError

/-- Python `obj[key]` on a decoded JSON object: the field's value, or a
`KeyError` when the key is missing (or the value is not an object). -/
def Json.getKey (j : Json) (k : String) : Except Err Prim :=
  match j with
  | Json.obj fields =>
    match lookupKey fields k with
    | some v => Except.ok v
    | none => Except.error (Err.keyError k)
  | _ => Except.error (Err.keyError k)

/-- The `params` dict `get_repairs(cluster='', states=[])` builds:
`cluster_name` and `state` are added only when the arguments are truthy
(Python `if cluster:` / `if states:`; empty string and empty list are
falsy). -/
def get_repairs_params (cluster : String) (states : List String) :
    List (String × Prim) :=
  let params : List (String × Prim) := []
  let params := if cluster ≠ "" then
    params ++ [("cluster_name", Prim.str cluster)] else params
  if states ≠ [] then
    params ++ [("state", Prim.str (String.intercalate "," states))]
  else params

/-- `get_repairs(cluster='', states=[])`: GET `repair_run` with the
conditionally built parameters, then decode. -/
def get_repairs (cluster : String) (states : List String) (timeout : Nat)
    (st : St) : Except Err Json × St :=
  match priv_get "repair_run" (get_repairs_params cluster states) timeout st with
  | (Except.error e, st1) => (Except.error e, st1)
  | (Except.ok req, st1) =>
    match req.json with
    | Except.error e => (Except.error e, st1)
    | Except.ok j => (Except.ok j, st1)

/-- The `params` dict `get_schedules(cluster='', keyspace='')` builds:
`clusterName` and `keyspace` only when truthy. -/
def get_schedules_params (cluster keyspace : String) :
    List (String × Prim) :=
  let params : List (String × Prim) := []
  let params := if cluster ≠ "" then
    params ++ [("clusterName", Prim.str cluster)] else params
  if keyspace ≠ "" then
    params ++ [("keyspace", Prim.str keyspace)]
  else params

/-- `get_schedules(cluster='', keyspace='')`: GET `repair_schedule` with
the conditionally built parameters, then decode. -/
def get_schedules (cluster keyspace : String) (timeout : Nat) (st : St) :
    Except Err Json × St :=
  match priv_get "repair_schedule" (get_schedules_params cluster keyspace)
      timeout st with
  | (Except.error e, st1) => (Except.error e, st1)
  | (Except.ok req, st1) =>
    match req.json with
    | Except.error e => (Except.error e, st1)
    | Except.ok j => (Except.ok j, st1)

/-- The `params` dict `create_cluster_snapshot` builds: mandatory
`snapshot_name` and `owner`; `keyspace`, `tables` (comma-joined) and
`cause` only when truthy. -/
def create_cluster_snapshot_params (snapshot_name owner cause keyspace :
    String) (tables : List String) : List (String × Prim) :=
  let params : List (String × Prim) :=
    [("snapshot_name", Prim.str snapshot_name), ("owner", Prim.str owner)]
  let params := if keyspace ≠ "" then
    params ++ [("keyspace", Prim.str keyspace)] else params
  let params := if tables ≠ [] then
    params ++ [("tables", Prim.str (String.intercalate "," tables))] else params
  if cause ≠ "" then params ++ [("cause", Prim.str cause)] else params

/-- `create_cluster_snapshot`: POST `/snapshot/cluster/{cluster}` with
the conditionally built parameters (and an empty form body — the helper
passes `data={}` by default). -/
def create_cluster_snapshot (cluster snapshot_name owner cause keyspace :
    String) (tables : List String) (timeout : Nat) (st : St) :
    Except Err Unit × St :=
  match priv_post ("/snapshot/cluster/" ++ cluster)
      (create_cluster_snapshot_params snapshot_name owner cause keyspace
        tables) [] timeout st with
  | (Except.error e, st1) => (Except.error e, st1)
  | (Except.ok _, st1) => (Except.ok (), st1)

/-- `get_repair(id)`: GET `repair_run/{id}` and decode the JSON body. -/
def get_repair (id : String) (timeout : Nat) (st : St) :
    Except Err Json × St :=
  match priv_get ("repair_run/" ++ id) [] timeout st with
  | (Except.error e, st1) => (Except.error e, st1)
  | (Except.ok req, st1) =>
    match req.json with
    | Except.error e => (Except.error e, st1)
    | Except.ok j => (Except.ok j, st1)

/-- `delete_repair(id)`: fetch the repair with `get_repair` (at that
call's own default timeout of 10), read its `owner` field, and DELETE
`repair_run/{id}` with `owner` as the only query parameter. -/
def delete_repair (id : String) (timeout : Nat) (st : St) :
    Except Err Unit × St :=
  match get_repair id 10 st with
  | (Except.error e, st1) => (Except.error e, st1)
  | (Except.ok repair, st1) =>
    match repair.getKey "owner" with
    | Except.error e => (Except.error e, st1)
    | Except.ok owner =>
      match priv_delete ("repair_run/" ++ id) [("owner", owner)] timeout st1 with
      | (Except.error e, st2) => (Except.error e, st2)
      | (Except.ok _, st2) => (Except.ok (), st2)

/-- `get_schedule(id)`: GET `repair_schedule/{id}` and decode. -/
def get_schedule (id : String) (timeout : Nat) (st : St) :
    Except Err Json × St :=
  match priv_get ("repair_schedule/" ++ id) [] timeout st with
  | (Except.error e, st1) => (Except.error e, st1)
  | (Except.ok req, st1) =>
    match req.json with
    | Except.error e => (Except.error e, st1)
    | Except.ok j => (Except.ok j, st1)

/-- `delete_schedule(id)`: fetch the schedule with `get_schedule` (at its
default timeout of 10), read its `owner` field, and DELETE
`repair_schedule/{id}` with `owner` as the only query parameter. -/
def delete_schedule (id : String) (timeout : Nat) (st : St) :
    Except Err Unit × St :=
  match get_schedule id 10 st with
  | (Except.error e, st1) => (Except.error e, st1)
  | (Except.ok schedule, st1) =>
    match schedule.getKey "owner" with
    | Except.error e => (Except.error e, st1)
    | Except.ok owner =>
      match priv_delete ("repair_schedule/" ++ id) [("owner", owner)] timeout st1 with
      | (Except.error e, st2) => (Except.error e, st2)
      | (Except.ok _, st2) => (Except.ok (), st2)

/-- The requests a call added to the log: the suffix of the final state's
sent list past the initial state's. -/
def newSends (st st' : St) : List SentRequest :=
  st'.sent.drop st.sent.length

/-- The error `__check_req` raises on a not-ok response. -/
def check_err (r : Response) : Err :=
  if r.status_code = 403 ∨ r.status_code = 498 ∨ r.status_code = 499 then
    Err.authError (check_msg r)
  else
    Err.httpError (check_msg r)

/-- The credential form fields of the login POST. -/
def loginData (st : St) : List (String × Prim) :=
  [("username", Prim.str st.user), ("password", Prim.str st.password),
   ("rememberMe", Prim.bool false)]

/-- The AuthExpired response the witnesses feed to the first attempt. -/
def resp403 : Response :=
  { status_code := 403, text := "expired",
    url := "http://reaper.local/api/cluster", jsonVal := none }

/-- The 200 response of the login POST in the witnesses. -/
def resp200login : Response :=
  { status_code := 200, text := "", url := "http://reaper.local/api/login",
    jsonVal := none }

/-- The 200 jwt response carrying the fresh token in the witnesses. -/
def resp200jwt : Response :=
  { status_code := 200, text := "tok2", url := "http://reaper.local/api/jwt",
    jsonVal := none }

/-- The final Ok response of the retried request in the C1 witness. -/
def resp200ok : Response :=
  { status_code := 200, text := "[]",
    url := "http://reaper.local/api/cluster", jsonVal := none }

/-- A session whose transport will answer AuthExpired, then let the
reauthentication succeed, then answer Ok. -/
def retryOkState : St :=
  { url := "http://reaper.local/api/", user := "u", password := "pw",
    verify := true, token := "old",
    headers := [("Authorization", "Bearer old")],
    script := [resp403, resp200login, resp200jwt, resp200ok],
    sent := [], loginCalls := 0 }

/-- A session whose transport answers AuthExpired both before and after
the successful reauthentication. -/
def retryAuthState : St :=
  { url := "http://reaper.local/api/", user := "u", password := "pw",
    verify := true, token := "old",
    headers := [("Authorization", "Bearer old")],
    script := [resp403, resp200login, resp200jwt, resp403],
    sent := [], loginCalls := 0 }

/-- A concrete session state used for counterexamples and witnesses: an
already-authenticated client about to receive a single 200 response. -/
def okState : St :=
  { url := "http://reaper.local/api/", user := "u", password := "pw",
    verify := true, token := "tok",
    headers := [("Authorization", "Bearer tok")],
    script := [{ status_code := 200, text := "[]",
                 url := "http://reaper.local/api/x", jsonVal := none }],
    sent := [], loginCalls := 0 }

/-- The auth-header invariant: the session's `Authorization` header
holds exactly `Bearer {token}` for the currently stored token. -/
def AuthInv (st : St) : Prop :=
  lookupKey st.headers "Authorization" = some ("Bearer " ++ st.token)

/-- One externally invokable operation of the session layer: a wrapped
request of any verb, an explicit `login()`, or `update_password`. -/
inductive Op where
  | opGet (q : String) (p : List (String × Prim)) (t : Nat)
  | opDelete (q : String) (p : List (String × Prim)) (t : Nat)
  | opPost (q : String) (p d : List (String × Prim)) (t : Nat)
  | opPut (q : String) (p d : List (String × Prim)) (t : Nat)
  | opPatch (q : String) (p j : List (String × Prim)) (t : Nat)
  | opLogin
  | opUpdatePassword (pw : String)

/-- The state after running one operation (its result discarded). -/
def runOp (op : Op) (st : St) : St :=
  match op with
  | Op.opGet q p t => (priv_get q p t st).2
  | Op.opDelete q p t => (priv_delete q p t st).2
  | Op.opPost q p d t => (priv_post q p d t st).2
  | Op.opPut q p d t => (priv_put q p d t st).2
  | Op.opPatch q p j t => (priv_patch q p j t st).2
  | Op.opLogin => (login st).2
  | Op.opUpdatePassword pw => update_password pw st

/-- A session whose login round trip succeeds but whose `/jwt` response
body is the empty string. -/
def emptyJwtState : St :=
  { url := "http://reaper.local/api/", user := "u", password := "pw",
    verify := true, token := "initial", headers := [],
    script :=
      [{ status_code := 200, text := "",
         url := "http://reaper.local/api/login", jsonVal := none },
       { status_code := 200, text := "",
         url := "http://reaper.local/api/jwt", jsonVal := none }],
    sent := [], loginCalls := 0 }

/-- A session whose login round trip succeeds with jwt body `"abc"`. -/
def jwtAbcState : St :=
  { url := "http://reaper.local/api/", user := "u", password := "pw",
    verify := true, token := "", headers := [],
    script :=
      [{ status_code := 200, text := "ok",
         url := "http://reaper.local/api/login", jsonVal := none },
       { status_code := 200, text := "abc",
         url := "http://reaper.local/api/jwt", jsonVal := none }],
    sent := [], loginCalls := 0 }

/-- A 500 response to the login POST. -/
def resp500 : Response :=
  { status_code := 500, text := "boom",
    url := "http://reaper.local/api/login", jsonVal := none }

/-- A fresh session whose transport will answer 500 to the login POST. -/
def failLoginState : St :=
  { url := "http://reaper.local/api/", user := "u", password := "pw",
    verify := true, token := "", headers := [], script := [resp500],
    sent := [], loginCalls := 0 }

/-- The one request `get_repairs` with default arguments sends on the
concrete `okState` session. -/
def defaultRepairsSR : SentRequest :=
  { verb := Verb.get, url := urljoin okState.url "repair_run",
    headers := okState.headers, params := get_repairs_params "" [],
    body := Body.none, timeout := some 10 }

/-- A 404 response for the initial GET of a delete operation. -/
def resp404 : Response :=
  { status_code := 404, text := "not found",
    url := "http://reaper.local/api/repair_run/1", jsonVal := none }

/-- An authenticated session whose transport will answer 404 to the next
request. -/
def getFailState : St :=
  { url := "http://reaper.local/api/", user := "u", password := "pw",
    verify := true, token := "tok",
    headers := [("Authorization", "Bearer tok")], script := [resp404],
    sent := [], loginCalls := 0 }

/-- The GET that `delete_repair "1"` issues first on `getFailState`. -/
def getRepairSR : SentRequest :=
  { verb := Verb.get, url := urljoin getFailState.url ("repair_run/" ++ "1"),
    headers := getFailState.headers, params := [], body := Body.none,
    timeout := some 10 }

/-- A session whose transport script is exhausted: the next request
fails with a transport fault before any login can happen. -/
def noScriptState : St :=
  { url := "http://reaper.local/api/", user := "u", password := "pw",
    verify := true, token := "tok",
    headers := [("Authorization", "Bearer tok")], script := [],
    sent := [], loginCalls := 0 }

/-- A 300-status response to the login POST: non-2xx, but still `ok` to
`requests` (which only fails statuses 400-599). -/
def resp300login : Response :=
  { status_code := 300, text := "redirect",
    url := "http://reaper.local/api/login", jsonVal := none }

/-- A fresh session whose transport answers 300 to the login POST and
then 200 with a token body to the /jwt GET. -/
def redirectLoginState : St :=
  { url := "http://reaper.local/api/", user := "u", password := "pw",
    verify := true, token := "", headers := [],
    script := [resp300login, resp200jwt], sent := [], loginCalls := 0 }

theorem check_req_of_ok {r : Response} (h : r.ok = true) :
    check_req r = Except.ok () := by
  unfold check_req
  simp [h]

theorem check_req_of_not_ok {r : Response} (h : r.ok = false) :
    check_req r = Except.error (check_err r) := by
  unfold check_req check_err
  simp only [h, Bool.not_false, if_true]
  split <;> rfl

theorem check_req_cases (r : Response) :
    check_req r = Except.ok () ∨
    check_req r = Except.error (Err.authError (check_msg r)) ∨
    check_req r = Except.error (Err.httpError (check_msg r)) := by
  unfold check_req
  split
  · split
    · exact Or.inr (Or.inl rfl)
    · exact Or.inr (Or.inr rfl)
  · exact Or.inl rfl

theorem classify_ok_check {r : Response} (h : classify r = Classification.ok) :
    check_req r = Except.ok () := by
  rcases check_req_cases r with hc | hc | hc
  · exact hc
  · unfold classify at h; rw [hc] at h; simp at h
  · unfold classify at h; rw [hc] at h; simp at h

theorem classify_auth_check {r : Response}
    (h : classify r = Classification.authExpired) :
    check_req r = Except.error (Err.authError (check_msg r)) := by
  rcases check_req_cases r with hc | hc | hc
  · unfold classify at h; rw [hc] at h; simp at h
  · exact hc
  · unfold classify at h; rw [hc] at h; simp at h

theorem classify_http_check {r : Response}
    (h : classify r = Classification.httpError) :
    check_req r = Except.error (Err.httpError (check_msg r)) := by
  rcases check_req_cases r with hc | hc | hc
  · unfold classify at h; rw [hc] at h; simp at h
  · unfold classify at h; rw [hc] at h; simp at h
  · exact hc

theorem send_cons (v : Verb) (url : String) (p : List (String × Prim))
    (b : Body) (t : Option Nat) (st : St) (r : Response)
    (rest : List Response) (hs : st.script = r :: rest) :
    send v url p b t st =
      (Except.ok r,
       { st with
           sent := st.sent ++
             [{ verb := v, url := url, headers := st.headers, params := p,
                body := b, timeout := t }],
           script := rest }) := by
  unfold send
  simp [hs]

theorem raw_req_cons_ok (v : Verb) (q : String) (p : List (String × Prim))
    (b : Body) (t : Nat) (st : St) (r : Response) (rest : List Response)
    (hs : st.script = r :: rest) (h : check_req r = Except.ok ()) :
    raw_req v q p b t st =
      (Except.ok r,
       { st with
           sent := st.sent ++
             [{ verb := v, url := urljoin st.url q, headers := st.headers,
                params := p, body := b, timeout := some t }],
           script := rest }) := by
  unfold raw_req
  dsimp only
  rw [send_cons v _ p b (some t) st r rest hs]
  simp [h]

theorem raw_req_cons_err (v : Verb) (q : String) (p : List (String × Prim))
    (b : Body) (t : Nat) (st : St) (r : Response) (rest : List Response)
    (e : Err) (hs : st.script = r :: rest)
    (h : check_req r = Except.error e) :
    raw_req v q p b t st =
      (Except.error e,
       { st with
           sent := st.sent ++
             [{ verb := v, url := urljoin st.url q, headers := st.headers,
                params := p, body := b, timeout := some t }],
           script := rest }) := by
  unfold raw_req
  dsimp only
  rw [send_cons v _ p b (some t) st r rest hs]
  simp [h]

theorem login_ok (st : St) (rL rJ : Response) (rest : List Response)
    (hs : st.script = rL :: rJ :: rest) (hL : rL.ok = true)
    (hJ : rJ.ok = true) :
    login st =
      (Except.ok (),
       { st with
           loginCalls := st.loginCalls + 1,
           script := rest,
           sent := st.sent ++
             [{ verb := Verb.post, url := urljoin st.url "login",
                headers := st.headers, params := [],
                body := Body.form (loginData st), timeout := none },
              { verb := Verb.get, url := urljoin st.url "jwt",
                headers := st.headers, params := [], body := Body.none,
                timeout := none }],
           token := rJ.text,
           headers := headersUpdate st.headers "Authorization"
             ("Bearer " ++ rJ.text) }) := by
  unfold login
  dsimp only
  rw [send_cons Verb.post _ [] _ none _ rL (rJ :: rest) (by simp [hs])]
  simp only [check_req_of_ok hL]
  rw [send_cons Verb.get _ [] Body.none none _ rJ rest (by simp)]
  simp [check_req_of_ok hJ, loginData]

theorem login_fail_post (st : St) (rL : Response) (rest : List Response)
    (hs : st.script = rL :: rest) (hL : rL.ok = false) :
    login st =
      (Except.error (check_err rL),
       { st with
           loginCalls := st.loginCalls + 1,
           script := rest,
           sent := st.sent ++
             [{ verb := Verb.post, url := urljoin st.url "login",
                headers := st.headers, params := [],
                body := Body.form (loginData st), timeout := none }] }) := by
  unfold login
  dsimp only
  rw [send_cons Verb.post _ [] _ none _ rL rest (by simp [hs])]
  simp [check_req_of_not_ok hL, loginData]

theorem login_fail_jwt (st : St) (rL rJ : Response) (rest : List Response)
    (hs : st.script = rL :: rJ :: rest) (hL : rL.ok = true)
    (hJ : rJ.ok = false) :
    login st =
      (Except.error (check_err rJ),
       { st with
           loginCalls := st.loginCalls + 1,
           script := rest,
           sent := st.sent ++
             [{ verb := Verb.post, url := urljoin st.url "login",
                headers := st.headers, params := [],
                body := Body.form (loginData st), timeout := none },
              { verb := Verb.get, url := urljoin st.url "jwt",
                headers := st.headers, params := [], body := Body.none,
                timeout := none }] }) := by
  unfold login
  dsimp only
  rw [send_cons Verb.post _ [] _ none _ rL (rJ :: rest) (by simp [hs])]
  simp only [check_req_of_ok hL]
  rw [send_cons Verb.get _ [] Body.none none _ rJ rest (by simp)]
  simp [check_req_of_not_ok hJ, loginData]

theorem ok_of_check_req {r : Response} (h : check_req r = Except.ok ()) :
    r.ok = true := by
  cases hok : r.ok
  · rw [check_req_of_not_ok hok] at h; cases h
  · rfl

theorem not_ok_of_check_err {r : Response} {e : Err}
    (h : check_req r = Except.error e) : r.ok = false := by
  cases hok : r.ok
  · rfl
  · rw [check_req_of_ok hok] at h; cases h

theorem newSends_append {st st' : St} {l : List SentRequest}
    (h : st'.sent = st.sent ++ l) : newSends st st' = l := by
  rw [newSends, h, List.drop_left]

theorem send_nil (v : Verb) (url : String) (p : List (String × Prim))
    (b : Body) (t : Option Nat) (st : St) (hs : st.script = []) :
    send v url p b t st =
      (Except.error Err.transport,
       { st with
           sent := st.sent ++
             [{ verb := v, url := url, headers := st.headers, params := p,
                body := b, timeout := t }] }) := by
  unfold send
  simp [hs]

theorem raw_req_nil (v : Verb) (q : String) (p : List (String × Prim))
    (b : Body) (t : Nat) (st : St) (hs : st.script = []) :
    raw_req v q p b t st =
      (Except.error Err.transport,
       { st with
           sent := st.sent ++
             [{ verb := v, url := urljoin st.url q, headers := st.headers,
                params := p, body := b, timeout := some t }] }) := by
  unfold raw_req
  dsimp only
  rw [send_nil v _ p b (some t) st hs]

theorem login_nil (st : St) (hs : st.script = []) :
    login st =
      (Except.error Err.transport,
       { st with
           loginCalls := st.loginCalls + 1,
           sent := st.sent ++
             [{ verb := Verb.post, url := urljoin st.url "login",
                headers := st.headers, params := [],
                body := Body.form (loginData st), timeout := none }] }) := by
  unfold login
  dsimp only
  rw [send_nil Verb.post _ [] _ none _ (by simp [hs])]
  simp [loginData]

theorem login_jwt_nil (st : St) (rL : Response) (hs : st.script = [rL])
    (hL : rL.ok = true) :
    login st =
      (Except.error Err.transport,
       { st with
           loginCalls := st.loginCalls + 1,
           script := [],
           sent := st.sent ++
             [{ verb := Verb.post, url := urljoin st.url "login",
                headers := st.headers, params := [],
                body := Body.form (loginData st), timeout := none },
              { verb := Verb.get, url := urljoin st.url "jwt",
                headers := st.headers, params := [], body := Body.none,
                timeout := none }] }) := by
  unfold login send
  simp [hs, check_req_of_ok hL, loginData]

/-- The state a private verb helper body leaves behind, whatever the
outcome: exactly one request logged (the caller's verb, resolved URL,
current headers, parameters, body, timeout) and no change to any session
field other than the script position. -/
theorem raw_req_shape (v : Verb) (q : String) (p : List (String × Prim))
    (b : Body) (t : Nat) (st : St) :
    ((raw_req v q p b t st).2).sent = st.sent ++
        [{ verb := v, url := urljoin st.url q, headers := st.headers,
           params := p, body := b, timeout := some t }] ∧
    ((raw_req v q p b t st).2).url = st.url ∧
    ((raw_req v q p b t st).2).user = st.user ∧
    ((raw_req v q p b t st).2).password = st.password ∧
    ((raw_req v q p b t st).2).token = st.token ∧
    ((raw_req v q p b t st).2).headers = st.headers ∧
    ((raw_req v q p b t st).2).loginCalls = st.loginCalls := by
  cases hs : st.script with
  | nil =>
    rw [raw_req_nil v q p b t st hs]
    simp
  | cons r rest =>
    rcases check_req_cases r with hc | hc | hc
    · rw [raw_req_cons_ok v q p b t st r rest hs hc]; simp
    · rw [raw_req_cons_err v q p b t st r rest _ hs hc]; simp
    · rw [raw_req_cons_err v q p b t st r rest _ hs hc]; simp

/-- What any `login()` run does to the session fields other than the
token and the Authorization header: it appends one or two requests (the
credential POST to the login URL, then possibly the jwt GET), increments
the invocation count, and leaves url, user and password alone. -/
theorem login_shape (st : St) :
    ∃ l, ((login st).2).sent = st.sent ++ l ∧
      ((login st).2).url = st.url ∧
      ((login st).2).user = st.user ∧
      ((login st).2).password = st.password ∧
      ((login st).2).loginCalls = st.loginCalls + 1 ∧
      ∀ sr ∈ l, sr.params = [] ∧
        ((sr.verb = Verb.post ∧ sr.url = urljoin st.url "login") ∨
         (sr.verb = Verb.get ∧ sr.url = urljoin st.url "jwt")) := by
  cases hs : st.script with
  | nil =>
    rw [login_nil st hs]
    refine ⟨_, rfl, rfl, rfl, rfl, rfl, ?_⟩
    intro sr hsr
    simp at hsr
    subst hsr
    simp
  | cons rL tail =>
    cases hL : rL.ok with
    | false =>
      rw [login_fail_post st rL tail hs hL]
      refine ⟨_, rfl, rfl, rfl, rfl, rfl, ?_⟩
      intro sr hsr
      simp at hsr
      subst hsr
      simp
    | true =>
      cases tail with
      | nil =>
        rw [login_jwt_nil st rL hs hL]
        refine ⟨_, rfl, rfl, rfl, rfl, rfl, ?_⟩
        intro sr hsr
        simp at hsr
        rcases hsr with hsr | hsr <;> subst hsr <;> simp
      | cons rJ rest =>
        cases hJ : rJ.ok with
        | false =>
          rw [login_fail_jwt st rL rJ rest hs hL hJ]
          refine ⟨_, rfl, rfl, rfl, rfl, rfl, ?_⟩
          intro sr hsr
          simp at hsr
          rcases hsr with hsr | hsr <;> subst hsr <;> simp
        | true =>
          rw [login_ok st rL rJ rest hs hL hJ]
          refine ⟨_, rfl, rfl, rfl, rfl, rfl, ?_⟩
          intro sr hsr
          simp at hsr
          rcases hsr with hsr | hsr <;> subst hsr <;> simp

/-- A `login()` run that raises leaves the token, the session headers and
the password exactly as they were. -/
theorem login_frame_err (st : St) (e : Err) (st' : St)
    (h : login st = (Except.error e, st')) :
    st'.token = st.token ∧ st'.headers = st.headers ∧
      st'.password = st.password := by
  cases hs : st.script with
  | nil =>
    rw [login_nil st hs] at h
    cases h
    simp
  | cons rL tail =>
    cases hL : rL.ok with
    | false =>
      rw [login_fail_post st rL tail hs hL] at h
      cases h
      simp
    | true =>
      cases tail with
      | nil =>
        rw [login_jwt_nil st rL hs hL] at h
        cases h
        simp
      | cons rJ rest =>
        cases hJ : rJ.ok with
        | false =>
          rw [login_fail_jwt st rL rJ rest hs hL hJ] at h
          cases h
          simp
        | true =>
          rw [login_ok st rL rJ rest hs hL hJ] at h
          cases h

/-- The three control paths of the `__auth_req` wrapper: pass-through
(no `AuthError` from the first attempt), `AuthError` then a failing
`login` whose error propagates, or `AuthError` then a successful `login`
followed by the identical call re-issued once. -/
theorem authReq_cases (f : St → Except Err Response × St) (st : St) :
    authReq f st = f st ∨
    ∃ m st1, f st = (Except.error (Err.authError m), st1) ∧
      ((∃ e st2, login st1 = (Except.error e, st2) ∧
          authReq f st = (Except.error e, st2)) ∨
       (∃ st2, login st1 = (Except.ok (), st2) ∧ authReq f st = f st2)) := by
  unfold authReq
  rcases hf : f st with ⟨res, st1⟩
  cases res with
  | ok r => exact Or.inl rfl
  | error e =>
    cases e with
    | authError m =>
      rcases hlog : login st1 with ⟨lres, st2⟩
      cases lres with
      | error e2 =>
        refine Or.inr ⟨m, st1, rfl, Or.inl ⟨e2, st2, hlog, ?_⟩⟩
        dsimp only
        rw [hlog]
      | ok u =>
        cases u
        refine Or.inr ⟨m, st1, rfl, Or.inr ⟨st2, hlog, ?_⟩⟩
        dsimp only
        rw [hlog]
    | httpError m => exact Or.inl rfl
    | transport => exact Or.inl rfl
    | jsonError => exact Or.inl rfl
    | keyError k => exact Or.inl rfl

/-- Everything a wrapped verb helper sends: first the caller's own
request (current headers, given verb/params/body/timeout), then possibly
the login-layer requests (empty params, POST to the login URL or GET to
the jwt URL) and one re-issue of the caller's request. -/
theorem authReq_sends_shape (v : Verb) (q : String)
    (p : List (String × Prim)) (b : Body) (t : Nat) (st : St) :
    ∃ tail, newSends st ((authReq (raw_req v q p b t) st).2) =
      { verb := v, url := urljoin st.url q, headers := st.headers,
        params := p, body := b, timeout := some t } :: tail ∧
      ∀ sr ∈ tail,
        (sr.params = [] ∧ (sr.verb = Verb.post ∨ sr.verb = Verb.get)) ∨
        (sr.params = p ∧ sr.verb = v ∧ sr.body = b ∧
          sr.url = urljoin st.url q) := by
  obtain ⟨hsent1, hurl1, -, -, -, -, -⟩ := raw_req_shape v q p b t st
  rcases authReq_cases (raw_req v q p b t) st with h | ⟨m, st1, hf, h⟩
  · rw [h]
    exact ⟨[], newSends_append hsent1, by intro sr hsr; cases hsr⟩
  · rw [hf] at hsent1 hurl1
    have hsent1' : st1.sent = st.sent ++
        [{ verb := v, url := urljoin st.url q, headers := st.headers,
           params := p, body := b, timeout := some t }] := hsent1
    have hurl1' : st1.url = st.url := hurl1
    obtain ⟨l, hsent2, hurl2, -, -, -, hl⟩ := login_shape st1
    rcases h with ⟨e, st2, hlog, heq⟩ | ⟨st2, hlog, heq⟩
    · rw [hlog] at hsent2 hurl2
      have hsent2' : st2.sent = st1.sent ++ l := hsent2
      rw [heq]
      refine ⟨l, ?_, ?_⟩
      · exact newSends_append (by rw [hsent2', hsent1']; simp)
      · intro sr hsr
        obtain ⟨hp, hvu⟩ := hl sr hsr
        refine Or.inl ⟨hp, ?_⟩
        rcases hvu with ⟨hv, -⟩ | ⟨hv, -⟩
        · exact Or.inl hv
        · exact Or.inr hv
    · rw [hlog] at hsent2 hurl2
      have hsent2' : st2.sent = st1.sent ++ l := hsent2
      have hurl2' : st2.url = st1.url := hurl2
      obtain ⟨hsent3, -, -, -, -, -, -⟩ := raw_req_shape v q p b t st2
      rw [heq]
      refine ⟨l ++ [SentRequest.mk v (urljoin st2.url q) st2.headers p b
        (some t)], ?_, ?_⟩
      · exact newSends_append (by rw [hsent3, hsent2', hsent1']; simp)
      · intro sr hsr
        rw [List.mem_append] at hsr
        rcases hsr with hsr | hsr
        · obtain ⟨hp, hvu⟩ := hl sr hsr
          refine Or.inl ⟨hp, ?_⟩
          rcases hvu with ⟨hv, -⟩ | ⟨hv, -⟩
          · exact Or.inl hv
          · exact Or.inr hv
        · rw [List.mem_singleton] at hsr
          subst hsr
          refine Or.inr ⟨rfl, rfl, rfl, ?_⟩
          rw [hurl2', hurl1']

/-- `__auth_req` step: a first attempt that raises `AuthError` followed
by a successful `login` re-issues the identical call once, and the
wrapper's result is that second call's result, whatever it is. -/
theorem authReq_auth_retry (f : St → Except Err Response × St) (st st1 st2 : St)
    (m : String) (hf : f st = (Except.error (Err.authError m), st1))
    (hlog : login st1 = (Except.ok (), st2)) :
    authReq f st = f st2 := by
  unfold authReq
  rw [hf]
  dsimp only
  rw [hlog]

/-- `__auth_req` step: if the first attempt raises `AuthError` and the
`login` it triggers itself fails, the login failure propagates. -/
theorem authReq_auth_loginfail (f : St → Except Err Response × St)
    (st st1 st2 : St) (m : String) (e : Err)
    (hf : f st = (Except.error (Err.authError m), st1))
    (hlog : login st1 = (Except.error e, st2)) :
    authReq f st = (Except.error e, st2) := by
  unfold authReq
  rw [hf]
  dsimp only
  rw [hlog]

/-- `__auth_req` step: any first outcome other than `AuthError` (success,
`HTTPError`, transport fault, decode error) passes through untouched. -/
theorem authReq_pass (f : St → Except Err Response × St) (st st1 : St)
    (res : Except Err Response) (hf : f st = (res, st1))
    (hres : ∀ m, res ≠ Except.error (Err.authError m)) :
    authReq f st = (res, st1) := by
  unfold authReq
  rw [hf]
  cases res with
  | ok r => rfl
  | error e =>
    cases e with
    | authError m => exact absurd rfl (hres m)
    | httpError m => rfl
    | transport => rfl
    | jsonError => rfl
    | keyError k => rfl

/-- The full state trace of the reauthentication detour: first attempt
classified AuthExpired, then a successful login (two more sends, new
token and Authorization header, one more `login()` invocation), leaving
the wrapper about to re-issue the identical call. -/
theorem authReq_retry_trace (v : Verb) (q : String)
    (p : List (String × Prim)) (b : Body) (t : Nat) (st : St)
    (r1 rL rJ : Response) (rest : List Response)
    (hs : st.script = r1 :: rL :: rJ :: rest)
    (h1 : check_req r1 = Except.error (Err.authError (check_msg r1)))
    (hLok : rL.ok = true) (hJok : rJ.ok = true) :
    ∃ st2, login ((raw_req v q p b t st).2) = (Except.ok (), st2) ∧
      authReq (raw_req v q p b t) st = raw_req v q p b t st2 ∧
      st2.script = rest ∧
      st2.url = st.url ∧
      st2.user = st.user ∧
      st2.password = st.password ∧
      st2.loginCalls = st.loginCalls + 1 ∧
      st2.token = rJ.text ∧
      st2.headers = headersUpdate st.headers "Authorization"
        ("Bearer " ++ rJ.text) ∧
      st2.sent = st.sent ++
        [{ verb := v, url := urljoin st.url q, headers := st.headers,
           params := p, body := b, timeout := some t },
         { verb := Verb.post, url := urljoin st.url "login",
           headers := st.headers, params := [],
           body := Body.form (loginData st), timeout := none },
         { verb := Verb.get, url := urljoin st.url "jwt",
           headers := st.headers, params := [], body := Body.none,
           timeout := none }] := by
  have hraw1 := raw_req_cons_err v q p b t st r1 (rL :: rJ :: rest) _ hs h1
  have hlog := login_ok
    { st with
        sent := st.sent ++
          [{ verb := v, url := urljoin st.url q, headers := st.headers,
             params := p, body := b, timeout := some t }],
        script := rL :: rJ :: rest } rL rJ rest rfl hLok hJok
  refine ⟨{ st with
      token := rJ.text,
      headers := headersUpdate st.headers "Authorization"
        ("Bearer " ++ rJ.text),
      script := rest,
      sent := (st.sent ++
        [{ verb := v, url := urljoin st.url q, headers := st.headers,
           params := p, body := b, timeout := some t }]) ++
        [{ verb := Verb.post, url := urljoin st.url "login",
           headers := st.headers, params := [],
           body := Body.form (loginData st), timeout := none },
         { verb := Verb.get, url := urljoin st.url "jwt",
           headers := st.headers, params := [], body := Body.none,
           timeout := none }],
      loginCalls := st.loginCalls + 1 },
    ?_, ?_, rfl, rfl, rfl, rfl, rfl, rfl, rfl, ?_⟩
  · rw [hraw1]
    exact hlog
  · exact authReq_auth_retry (raw_req v q p b t) st _ _ _ hraw1 hlog
  · simp

/-- C1: for any wrapped request (any verb, path, params, body, timeout),
if the first transport response classifies AuthExpired and the re-issued
request after the single login classifies Ok, the operation returns that
Ok response and `login()` was invoked exactly once during the call. -/
theorem claim_C1 (v : Verb) (q : String) (p : List (String × Prim))
    (b : Body) (t : Nat) (st : St) (r1 rL rJ r2 : Response)
    (rest : List Response)
    (hs : st.script = r1 :: rL :: rJ :: r2 :: rest)
    (h1 : classify r1 = Classification.authExpired)
    (hL : classify rL = Classification.ok)
    (hJ : classify rJ = Classification.ok)
    (h2 : classify r2 = Classification.ok) :
    ∃ st', authReq (raw_req v q p b t) st = (Except.ok r2, st') ∧
      st'.loginCalls = st.loginCalls + 1 := by
  obtain ⟨st2, -, hstep, hscript2, -, -, -, hlc2, -, -, -⟩ :=
    authReq_retry_trace v q p b t st r1 rL rJ (r2 :: rest) hs
      (classify_auth_check h1) (ok_of_check_req (classify_ok_check hL))
      (ok_of_check_req (classify_ok_check hJ))
  have hraw2 :=
    raw_req_cons_ok v q p b t st2 r2 rest hscript2 (classify_ok_check h2)
  refine ⟨(raw_req v q p b t st2).2, ?_, ?_⟩
  · rw [hstep, hraw2]
  · rw [hraw2]
    exact hlc2

/-- C2: for any wrapped request, if the first response classifies
AuthExpired and — after the single successful reauthentication — the
re-issued request again classifies AuthExpired, the call raises
`AuthError` after exactly one reauthentication (`login()` invoked once,
not zero, not twice), and the transport saw exactly four requests: the
original, the login POST, the jwt GET and one re-issue — never a third
send of the original request.  A second-attempt HttpError likewise
propagates as-is after the single reauthentication. -/
theorem claim_C2 (v : Verb) (q : String) (p : List (String × Prim))
    (b : Body) (t : Nat) (st : St) (r1 rL rJ r2 : Response)
    (rest : List Response)
    (hs : st.script = r1 :: rL :: rJ :: r2 :: rest)
    (h1 : classify r1 = Classification.authExpired)
    (hL : classify rL = Classification.ok)
    (hJ : classify rJ = Classification.ok) :
    (classify r2 = Classification.authExpired →
      ∃ st', authReq (raw_req v q p b t) st =
          (Except.error (Err.authError (check_msg r2)), st') ∧
        st'.loginCalls = st.loginCalls + 1 ∧
        newSends st st' =
          [{ verb := v, url := urljoin st.url q, headers := st.headers,
             params := p, body := b, timeout := some t },
           { verb := Verb.post, url := urljoin st.url "login",
             headers := st.headers, params := [],
             body := Body.form (loginData st), timeout := none },
           { verb := Verb.get, url := urljoin st.url "jwt",
             headers := st.headers, params := [], body := Body.none,
             timeout := none },
           { verb := v, url := urljoin st.url q,
             headers := headersUpdate st.headers "Authorization"
               ("Bearer " ++ rJ.text),
             params := p, body := b, timeout := some t }]) ∧
    (classify r2 = Classification.httpError →
      ∃ st', authReq (raw_req v q p b t) st =
          (Except.error (Err.httpError (check_msg r2)), st') ∧
        st'.loginCalls = st.loginCalls + 1) := by
  obtain ⟨st2, -, hstep, hscript2, hurl2, -, -, hlc2, -, hhdr2, hsent2⟩ :=
    authReq_retry_trace v q p b t st r1 rL rJ (r2 :: rest) hs
      (classify_auth_check h1) (ok_of_check_req (classify_ok_check hL))
      (ok_of_check_req (classify_ok_check hJ))
  constructor
  · intro h2
    have hraw2 := raw_req_cons_err v q p b t st2 r2 rest _ hscript2
      (classify_auth_check h2)
    refine ⟨(raw_req v q p b t st2).2, ?_, ?_, ?_⟩
    · rw [hstep, hraw2]
    · rw [hraw2]
      exact hlc2
    · rw [hraw2]
      refine newSends_append ?_
      show st2.sent ++
        [{ verb := v, url := urljoin st2.url q, headers := st2.headers,
           params := p, body := b, timeout := some t }] = _
      rw [hsent2, hurl2, hhdr2]
      simp
  · intro h2
    have hraw2 := raw_req_cons_err v q p b t st2 r2 rest _ hscript2
      (classify_http_check h2)
    refine ⟨(raw_req v q p b t st2).2, ?_, ?_⟩
    · rw [hstep, hraw2]
    · rw [hraw2]
      exact hlc2

/-- Witness for C1 on the concrete AuthExpired-then-Ok script. -/
theorem claim_C1_witness :
    ∃ st', authReq (raw_req Verb.get "cluster" [] Body.none 10)
        retryOkState = (Except.ok resp200ok, st') ∧
      st'.loginCalls = retryOkState.loginCalls + 1 :=
  claim_C1 Verb.get "cluster" [] Body.none 10 retryOkState _ _ _ _ []
    rfl rfl rfl rfl rfl

/-- Witness for C2 on the concrete AuthExpired-twice script. -/
theorem claim_C2_witness :
    ∃ st', authReq (raw_req Verb.get "cluster" [] Body.none 10)
        retryAuthState =
        (Except.error (Err.authError (check_msg resp403)), st') ∧
      st'.loginCalls = retryAuthState.loginCalls + 1 ∧
      newSends retryAuthState st' =
        [{ verb := Verb.get, url := urljoin retryAuthState.url "cluster",
           headers := retryAuthState.headers, params := [],
           body := Body.none, timeout := some 10 },
         { verb := Verb.post, url := urljoin retryAuthState.url "login",
           headers := retryAuthState.headers, params := [],
           body := Body.form (loginData retryAuthState), timeout := none },
         { verb := Verb.get, url := urljoin retryAuthState.url "jwt",
           headers := retryAuthState.headers, params := [],
           body := Body.none, timeout := none },
         { verb := Verb.get, url := urljoin retryAuthState.url "cluster",
           headers := headersUpdate retryAuthState.headers "Authorization"
             ("Bearer " ++ resp200jwt.text),
           params := [], body := Body.none, timeout := some 10 }] :=
  (claim_C2 Verb.get "cluster" [] Body.none 10 retryAuthState _ _ _ _ []
    rfl rfl rfl rfl).1 rfl

/-- C3, amended: for every status code 100–599 the classifier assigns
exactly one of three classes, but the Ok class is every status below 400
(`requests`' `ok` predicate), not just 200–299: Ok for 100–399,
AuthExpired for {403, 498, 499}, HttpError for every other status in
400–599; in particular 401 classifies as HttpError, not AuthExpired. -/
theorem claim_C3 (r : Response) (h1 : 100 ≤ r.status_code)
    (h2 : r.status_code ≤ 599) :
    (classify r = Classification.ok ↔ r.status_code < 400) ∧
    (classify r = Classification.authExpired ↔
      (r.status_code = 403 ∨ r.status_code = 498 ∨ r.status_code = 499)) ∧
    (classify r = Classification.httpError ↔
      (400 ≤ r.status_code ∧
        ¬(r.status_code = 403 ∨ r.status_code = 498 ∨ r.status_code = 499))) ∧
    (r.status_code = 401 → classify r = Classification.httpError) := by
  by_cases hlt : r.status_code < 400
  · have hok : r.ok = true := by unfold Response.ok; simp; omega
    have hc : classify r = Classification.ok := by
      unfold classify
      rw [check_req_of_ok hok]
    rw [hc]
    refine ⟨?_, ?_, ?_, ?_⟩ <;> simp <;> omega
  · have hok : r.ok = false := by unfold Response.ok; simp; omega
    by_cases hauth :
        r.status_code = 403 ∨ r.status_code = 498 ∨ r.status_code = 499
    · have hce : check_err r = Err.authError (check_msg r) := by
        unfold check_err
        rw [if_pos hauth]
      have hc : classify r = Classification.authExpired := by
        unfold classify
        rw [check_req_of_not_ok hok, hce]
      rw [hc]
      refine ⟨?_, ?_, ?_, ?_⟩ <;> simp <;> omega
    · have hce : check_err r = Err.httpError (check_msg r) := by
        unfold check_err
        rw [if_neg hauth]
      have hc : classify r = Classification.httpError := by
        unfold classify
        rw [check_req_of_not_ok hok, hce]
      rw [hc]
      refine ⟨?_, ?_, ?_, ?_⟩ <;> simp <;> omega

/-- C3 counterexample: a 300-status response is non-2xx and outside
{403,498,499}, so the claim says HttpError, but the code's classifier
(`req.ok`, true for any status below 400) returns Ok. -/
theorem claim_C3_counterexample :
    classify { status_code := 300, text := "", url := "", jsonVal := none } =
      Classification.ok ∧
    spec_classify 300 = Classification.httpError ∧
    Classification.ok ≠ Classification.httpError :=
  ⟨rfl, rfl, by decide⟩

/-- Witness for C3 at status 401: classification is HttpError, matching
every conjunct of the amended partition. -/
theorem claim_C3_witness :
    (classify { status_code := 401, text := "", url := "", jsonVal := none } =
        Classification.ok ↔ (401 : Nat) < 400) ∧
    (classify { status_code := 401, text := "", url := "", jsonVal := none } =
        Classification.authExpired ↔
      ((401 : Nat) = 403 ∨ (401 : Nat) = 498 ∨ (401 : Nat) = 499)) ∧
    (classify { status_code := 401, text := "", url := "", jsonVal := none } =
        Classification.httpError ↔
      ((400 : Nat) ≤ 401 ∧
        ¬((401 : Nat) = 403 ∨ (401 : Nat) = 498 ∨ (401 : Nat) = 499))) ∧
    ((401 : Nat) = 401 →
      classify { status_code := 401, text := "", url := "", jsonVal := none } =
        Classification.httpError) :=
  claim_C3 { status_code := 401, text := "", url := "", jsonVal := none }
    (by decide) (by decide)

/-- C6, amended: PUT and POST send the caller-supplied payload as a
form-encoded body and PATCH sends its payload as a JSON body, but the
DELETE helper takes no payload argument and its requests carry no body
(as do GET requests).  The statement reads off the first request each
wrapped helper hands to the transport. -/
theorem claim_C6 (q : String) (p d j : List (String × Prim)) (t : Nat)
    (st : St) :
    (∃ sr tail, newSends st ((priv_put q p d t st).2) = sr :: tail ∧
       sr.verb = Verb.put ∧ sr.body = Body.form d) ∧
    (∃ sr tail, newSends st ((priv_post q p d t st).2) = sr :: tail ∧
       sr.verb = Verb.post ∧ sr.body = Body.form d) ∧
    (∃ sr tail, newSends st ((priv_patch q p j t st).2) = sr :: tail ∧
       sr.verb = Verb.patch ∧ sr.body = Body.json j) ∧
    (∃ sr tail, newSends st ((priv_delete q p t st).2) = sr :: tail ∧
       sr.verb = Verb.delete ∧ sr.body = Body.none) ∧
    (∃ sr tail, newSends st ((priv_get q p t st).2) = sr :: tail ∧
       sr.verb = Verb.get ∧ sr.body = Body.none) := by
  refine ⟨?_, ?_, ?_, ?_, ?_⟩
  · obtain ⟨tail, hshape, -⟩ := authReq_sends_shape Verb.put q p (Body.form d) t st
    exact ⟨_, tail, hshape, rfl, rfl⟩
  · obtain ⟨tail, hshape, -⟩ := authReq_sends_shape Verb.post q p (Body.form d) t st
    exact ⟨_, tail, hshape, rfl, rfl⟩
  · obtain ⟨tail, hshape, -⟩ := authReq_sends_shape Verb.patch q p (Body.json j) t st
    exact ⟨_, tail, hshape, rfl, rfl⟩
  · obtain ⟨tail, hshape, -⟩ := authReq_sends_shape Verb.delete q p Body.none t st
    exact ⟨_, tail, hshape, rfl, rfl⟩
  · obtain ⟨tail, hshape, -⟩ := authReq_sends_shape Verb.get q p Body.none t st
    exact ⟨_, tail, hshape, rfl, rfl⟩

/-- C6 counterexample: a DELETE issued through `__delete` (here
`delete_cluster`'s request shape) sends no request body at all — not a
form-encoded payload as the claim states; the helper has no payload
parameter. -/
theorem claim_C6_counterexample :
    ((newSends okState
        ((priv_delete "cluster/c" [("force", Prim.bool false)] 10
          okState).2)).map SentRequest.body) = [Body.none] ∧
    Body.none ≠ Body.form [] :=
  ⟨rfl, by decide⟩

/-- C7: `update_password` replaces only the stored password: no request
is sent, no response consumed, and the token, headers, login count and
every other session field are unchanged. -/
theorem claim_C7 (st : St) (new : String) :
    (update_password new st).password = new ∧
    (update_password new st).token = st.token ∧
    (update_password new st).headers = st.headers ∧
    (update_password new st).sent = st.sent ∧
    (update_password new st).script = st.script ∧
    (update_password new st).loginCalls = st.loginCalls ∧
    (update_password new st).url = st.url ∧
    (update_password new st).user = st.user ∧
    (update_password new st).verify = st.verify :=
  ⟨rfl, rfl, rfl, rfl, rfl, rfl, rfl, rfl, rfl⟩

theorem lookupKey_map_update (hs : List (String × String)) (k v : String)
    (hany : hs.any (fun p => p.1 = k) = true) :
    lookupKey (hs.map (fun p => if p.1 = k then (k, v) else p)) k =
      some v := by
  induction hs with
  | nil => simp at hany
  | cons hd tl ih =>
    by_cases hk : hd.1 = k
    · unfold lookupKey
      rw [List.map_cons, if_pos hk, List.find?_cons_of_pos _ (by simp)]
      rfl
    · simp only [List.any_cons, Bool.or_eq_true, decide_eq_true_eq] at hany
      rcases hany with hany | hany
      · exact absurd hany hk
      · unfold lookupKey
        rw [List.map_cons, if_neg hk,
          List.find?_cons_of_neg _ (by simp [hk])]
        exact ih hany

theorem lookupKey_headersUpdate (hs : List (String × String)) (k v : String) :
    lookupKey (headersUpdate hs k v) k = some v := by
  unfold headersUpdate
  split
  case isTrue hany => exact lookupKey_map_update hs k v hany
  case isFalse hany =>
    have hnone : hs.find? (fun p => decide (p.1 = k)) = none := by
      rw [List.find?_eq_none]
      intro x hx hpx
      exact hany (List.any_eq_true.mpr ⟨x, hx, hpx⟩)
    unfold lookupKey
    rw [List.find?_append, hnone]
    rw [List.find?_cons_of_pos _ (by simp)]
    rfl

theorem login_ok_headers (st st' : St) (h : login st = (Except.ok (), st')) :
    st'.headers = headersUpdate st.headers "Authorization"
      ("Bearer " ++ st'.token) := by
  cases hs : st.script with
  | nil => rw [login_nil st hs] at h; cases h
  | cons rL tail =>
    cases hL : rL.ok with
    | false => rw [login_fail_post st rL tail hs hL] at h; cases h
    | true =>
      cases tail with
      | nil => rw [login_jwt_nil st rL hs hL] at h; cases h
      | cons rJ rest =>
        cases hJ : rJ.ok with
        | false => rw [login_fail_jwt st rL rJ rest hs hL hJ] at h; cases h
        | true =>
          rw [login_ok st rL rJ rest hs hL hJ] at h
          cases h
          rfl

theorem login_ok_token (st st' : St) (h : login st = (Except.ok (), st')) :
    ∃ rL rJ rest, st.script = rL :: rJ :: rest ∧ rL.ok = true ∧
      rJ.ok = true ∧ st'.token = rJ.text := by
  cases hs : st.script with
  | nil => rw [login_nil st hs] at h; cases h
  | cons rL tail =>
    cases hL : rL.ok with
    | false => rw [login_fail_post st rL tail hs hL] at h; cases h
    | true =>
      cases tail with
      | nil => rw [login_jwt_nil st rL hs hL] at h; cases h
      | cons rJ rest =>
        cases hJ : rJ.ok with
        | false => rw [login_fail_jwt st rL rJ rest hs hL hJ] at h; cases h
        | true =>
          rw [login_ok st rL rJ rest hs hL hJ] at h
          cases h
          exact ⟨rL, rJ, rest, rfl, hL, hJ, rfl⟩

/-- Any `login()` run maintains the auth-header invariant: on success it
re-establishes it with the fresh token; on failure it touches neither
the token nor the headers. -/
theorem authInv_login (st : St) (hinv : AuthInv st) :
    AuthInv ((login st).2) := by
  rcases hlog : login st with ⟨res, st'⟩
  cases res with
  | ok u =>
    cases u
    have := login_ok_headers st st' hlog
    unfold AuthInv
    rw [this, lookupKey_headersUpdate]
  | error e =>
    obtain ⟨htok, hhdr, -⟩ := login_frame_err st e st' hlog
    unfold AuthInv
    rw [htok, hhdr]
    exact hinv

/-- Any wrapped request maintains the auth-header invariant, whether it
passes through, fails, or performs the embedded reauthentication. -/
theorem authInv_authReq (v : Verb) (q : String) (p : List (String × Prim))
    (b : Body) (t : Nat) (st : St) (hinv : AuthInv st) :
    AuthInv ((authReq (raw_req v q p b t) st).2) := by
  have inv_raw : ∀ s : St, AuthInv s → AuthInv ((raw_req v q p b t s).2) := by
    intro s hs
    obtain ⟨-, -, -, -, htok, hhdr, -⟩ := raw_req_shape v q p b t s
    unfold AuthInv
    rw [htok, hhdr]
    exact hs
  rcases authReq_cases (raw_req v q p b t) st with h | ⟨m, st1, hf, h⟩
  · rw [h]
    exact inv_raw st hinv
  · have hinv1 : AuthInv st1 := by
      have := inv_raw st hinv
      rw [hf] at this
      exact this
    rcases h with ⟨e, st2, hlog, heq⟩ | ⟨st2, hlog, heq⟩
    · rw [heq]
      have := authInv_login st1 hinv1
      rw [hlog] at this
      exact this
    · rw [heq]
      refine inv_raw st2 ?_
      have := authInv_login st1 hinv1
      rw [hlog] at this
      exact this

/-- Every operation of the session layer maintains the auth-header
invariant. -/
theorem authInv_runOp (op : Op) (st : St) (hinv : AuthInv st) :
    AuthInv (runOp op st) := by
  cases op with
  | opGet q p t => exact authInv_authReq Verb.get q p Body.none t st hinv
  | opDelete q p t => exact authInv_authReq Verb.delete q p Body.none t st hinv
  | opPost q p d t =>
    exact authInv_authReq Verb.post q p (Body.form d) t st hinv
  | opPut q p d t =>
    exact authInv_authReq Verb.put q p (Body.form d) t st hinv
  | opPatch q p j t =>
    exact authInv_authReq Verb.patch q p (Body.json j) t st hinv
  | opLogin => exact authInv_login st hinv
  | opUpdatePassword pw => exact hinv

/-- C4, amended: after any successful `login` the stored token is the
`/jwt` response body text (so it is non-empty whenever that body is —
the code itself never checks emptiness) and the session's Authorization
header is exactly `Bearer {token}`; every session operation preserves
that header/token agreement, and every transport send carries the
session headers current at that moment — so every request between
successful logins carries the stored token as bearer credential.
Before any login (construction with `login=False`) the session has no
Authorization header, and a request issued from such a session sends
none. -/
theorem claim_C4 :
    (∀ st st', login st = (Except.ok (), st') →
      AuthInv st' ∧
      (∃ rL rJ rest, st.script = rL :: rJ :: rest ∧ st'.token = rJ.text ∧
        (rJ.text ≠ "" → st'.token ≠ ""))) ∧
    (∀ op st, AuthInv st → AuthInv (runOp op st)) ∧
    (∀ v url p b t st, newSends st ((send v url p b t st).2) =
      [{ verb := v, url := url, headers := st.headers, params := p,
         body := b, timeout := t }]) ∧
    (∀ url user pw vfy script,
      lookupKey ((init url user pw vfy false script).2).headers
        "Authorization" = none) ∧
    (∀ v q p b t st, lookupKey st.headers "Authorization" = none →
      ∀ sr ∈ newSends st ((raw_req v q p b t st).2),
        lookupKey sr.headers "Authorization" = none) := by
  refine ⟨?_, authInv_runOp, ?_, ?_, ?_⟩
  · intro st st' h
    refine ⟨?_, ?_⟩
    · unfold AuthInv
      rw [login_ok_headers st st' h, lookupKey_headersUpdate]
    · obtain ⟨rL, rJ, rest, hs, -, -, htok⟩ := login_ok_token st st' h
      exact ⟨rL, rJ, rest, hs, htok, fun hne => by rw [htok]; exact hne⟩
  · intro v url p b t st
    cases hs : st.script with
    | nil =>
      rw [send_nil v url p b t st hs]
      exact newSends_append rfl
    | cons r rest =>
      rw [send_cons v url p b t st r rest hs]
      exact newSends_append rfl
  · intro url user pw vfy script
    rfl
  · intro v q p b t st hnone sr hsr
    obtain ⟨hsent, -⟩ := raw_req_shape v q p b t st
    rw [newSends_append hsent] at hsr
    simp at hsr
    subst hsr
    exact hnone

/-- C4 counterexample: a login that succeeds (both responses 200) with
an empty `/jwt` body stores the empty string as token — the code never
enforces the claimed non-emptiness, it stores the body verbatim. -/
theorem claim_C4_counterexample :
    (login emptyJwtState).1 = Except.ok () ∧
    ((login emptyJwtState).2).token = "" :=
  ⟨rfl, rfl⟩

/-- Witness for C4: a successful concrete login with jwt body "abc"
establishes the Authorization/token agreement and stores a non-empty
token. -/
theorem claim_C4_witness :
    AuthInv ((login jwtAbcState).2) ∧
    (∃ rL rJ rest, jwtAbcState.script = rL :: rJ :: rest ∧
      ((login jwtAbcState).2).token = rJ.text ∧
      (rJ.text ≠ "" → ((login jwtAbcState).2).token ≠ "")) :=
  claim_C4.1 jwtAbcState ((login jwtAbcState).2) rfl

/-- C5, amended: a not-ok (status 400-599) response to the login POST —
not every non-2xx one, see the counterexample at status 300 — makes
`login()` raise immediately: exactly one request was sent, the `/jwt`
GET is never issued, and the error is `HTTPError` whenever the status is
outside the auth set {403,498,499}.  The failure always propagates:
through the retry wrapper (an AuthExpired first attempt followed by a
failing login surfaces the login failure, with only two sends: the
original request and the login POST) and through construction with
`login=True`. -/
theorem claim_C5 :
    (∀ st rL rest, st.script = rL :: rest → rL.ok = false →
      login st =
        (Except.error (check_err rL),
         { st with
             loginCalls := st.loginCalls + 1,
             script := rest,
             sent := st.sent ++
               [{ verb := Verb.post, url := urljoin st.url "login",
                  headers := st.headers, params := [],
                  body := Body.form (loginData st), timeout := none }] }) ∧
      (¬(rL.status_code = 403 ∨ rL.status_code = 498 ∨
          rL.status_code = 499) →
        check_err rL = Err.httpError (check_msg rL))) ∧
    (∀ v q p b t st r1 rL rest, st.script = r1 :: rL :: rest →
      classify r1 = Classification.authExpired → rL.ok = false →
      ∃ st', authReq (raw_req v q p b t) st =
          (Except.error (check_err rL), st') ∧
        (newSends st st').length = 2) ∧
    (∀ url user pw vfy rL rest, rL.ok = false →
      (init url user pw vfy true (rL :: rest)).1 =
        Except.error (check_err rL)) := by
  refine ⟨?_, ?_, ?_⟩
  · intro st rL rest hs hL
    refine ⟨login_fail_post st rL rest hs hL, ?_⟩
    intro hna
    unfold check_err
    rw [if_neg hna]
  · intro v q p b t st r1 rL rest hs h1 hL
    have hraw1 := raw_req_cons_err v q p b t st r1 (rL :: rest) _ hs
      (classify_auth_check h1)
    have hlog := login_fail_post
      { st with
          sent := st.sent ++
            [{ verb := v, url := urljoin st.url q, headers := st.headers,
               params := p, body := b, timeout := some t }],
          script := rL :: rest } rL rest rfl hL
    refine ⟨_,
      authReq_auth_loginfail (raw_req v q p b t) st _ _ _ _ hraw1 hlog, ?_⟩
    refine (newSends_append (l :=
      [{ verb := v, url := urljoin st.url q, headers := st.headers,
         params := p, body := b, timeout := some t },
       { verb := Verb.post, url := urljoin st.url "login",
         headers := st.headers, params := [],
         body := Body.form (loginData st), timeout := none }]) ?_) ▸ rfl
    simp [loginData]
  · intro url user pw vfy rL rest hL
    have h0 := login_fail_post
      { url := url, user := user, password := pw, verify := vfy,
        token := "", headers := [], script := rL :: rest, sent := [],
        loginCalls := 0 } rL rest rfl hL
    show (login
      { url := url, user := user, password := pw, verify := vfy,
        token := "", headers := [], script := rL :: rest, sent := [],
        loginCalls := 0 }).1 = Except.error (check_err rL)
    rw [h0]

/-- Witness for C5: the concrete 500 login POST raises `HTTPError` with
exactly one request sent, and 500 is outside the auth set. -/
theorem claim_C5_witness :
    login failLoginState =
      (Except.error (check_err resp500),
       { failLoginState with
           loginCalls := failLoginState.loginCalls + 1, script := [],
           sent := failLoginState.sent ++
             [{ verb := Verb.post,
                url := urljoin failLoginState.url "login",
                headers := failLoginState.headers, params := [],
                body := Body.form (loginData failLoginState),
                timeout := none }] }) ∧
    (¬(resp500.status_code = 403 ∨ resp500.status_code = 498 ∨
        resp500.status_code = 499) →
      check_err resp500 = Err.httpError (check_msg resp500)) :=
  claim_C5.1 failLoginState resp500 [] rfl rfl

/-- C5 counterexample: a 300-status response to the login POST is
non-2xx, yet `login()` does not raise — `requests`' `ok` accepts any
status below 400 — so it proceeds to issue the `/jwt` GET (two requests
sent, the second to the jwt URL) and returns successfully. -/
theorem claim_C5_counterexample :
    (resp300login.status_code < 200 ∨ 299 < resp300login.status_code) ∧
    (login redirectLoginState).1 = Except.ok () ∧
    ((login redirectLoginState).2).sent.map SentRequest.url =
      [urljoin redirectLoginState.url "login",
       urljoin redirectLoginState.url "jwt"] :=
  ⟨by decide, rfl, rfl⟩

/-- Every request a wrapped helper sends carries either the caller's
query parameters or the login layer's empty parameters; so a key absent
from the caller's parameters is absent from every outgoing request of
the call. -/
theorem wrapped_params_lookup (v : Verb) (q : String)
    (p : List (String × Prim)) (b : Body) (t : Nat) (st : St) (k : String)
    (hk : lookupKey p k = none) :
    ∀ sr ∈ newSends st ((authReq (raw_req v q p b t) st).2),
      lookupKey sr.params k = none := by
  intro sr hsr
  obtain ⟨tail, heq, htail⟩ := authReq_sends_shape v q p b t st
  rw [heq] at hsr
  rcases List.mem_cons.mp hsr with hsr | hsr
  · subst hsr
    exact hk
  · rcases htail sr hsr with ⟨hp, -⟩ | ⟨hp, -⟩
    · rw [hp]
      rfl
    · rw [hp]
      exact hk

/-- The state `get_repairs` ends in is the state its GET ends in (the
JSON decode consumes no transport step and mutates nothing). -/
theorem get_repairs_snd (c : String) (s : List String) (t : Nat) (st : St) :
    (get_repairs c s t st).2 =
      (priv_get "repair_run" (get_repairs_params c s) t st).2 := by
  unfold get_repairs
  rcases hp : priv_get "repair_run" (get_repairs_params c s) t st with ⟨res, st1⟩
  cases res with
  | error e => rfl
  | ok r =>
    dsimp only
    cases hj : r.json with
    | error e => rfl
    | ok j => rfl

/-- The state `get_schedules` ends in is the state its GET ends in. -/
theorem get_schedules_snd (c k : String) (t : Nat) (st : St) :
    (get_schedules c k t st).2 =
      (priv_get "repair_schedule" (get_schedules_params c k) t st).2 := by
  unfold get_schedules
  rcases hp : priv_get "repair_schedule" (get_schedules_params c k) t st
    with ⟨res, st1⟩
  cases res with
  | error e => rfl
  | ok r =>
    dsimp only
    cases hj : r.json with
    | error e => rfl
    | ok j => rfl

/-- The state `create_cluster_snapshot` ends in is the state its POST
ends in. -/
theorem create_cluster_snapshot_snd (c n o ca ks : String)
    (tb : List String) (t : Nat) (st : St) :
    (create_cluster_snapshot c n o ca ks tb t st).2 =
      (priv_post ("/snapshot/cluster/" ++ c)
        (create_cluster_snapshot_params n o ca ks tb) [] t st).2 := by
  unfold create_cluster_snapshot
  rcases hp : priv_post ("/snapshot/cluster/" ++ c)
      (create_cluster_snapshot_params n o ca ks tb) [] t st with ⟨res, st1⟩
  cases res with
  | error e => rfl
  | ok r => rfl

/-- C8: a filter argument left at its empty default is omitted from the
outgoing query parameters of every request the operation sends — the key
is entirely absent, not sent empty or null: `get_repairs` omits
`cluster_name` and `state`, `get_schedules` omits `clusterName` and
`keyspace`, `create_cluster_snapshot` omits `keyspace`, `tables` and
`cause`. -/
theorem claim_C8 :
    (∀ t st, ∀ sr ∈ newSends st ((get_repairs "" [] t st).2),
      lookupKey sr.params "cluster_name" = none ∧
      lookupKey sr.params "state" = none) ∧
    (∀ t st, ∀ sr ∈ newSends st ((get_schedules "" "" t st).2),
      lookupKey sr.params "clusterName" = none ∧
      lookupKey sr.params "keyspace" = none) ∧
    (∀ c n o t st, ∀ sr ∈ newSends st
        ((create_cluster_snapshot c n o "" "" [] t st).2),
      lookupKey sr.params "keyspace" = none ∧
      lookupKey sr.params "tables" = none ∧
      lookupKey sr.params "cause" = none) := by
  refine ⟨?_, ?_, ?_⟩
  · intro t st sr hsr
    rw [get_repairs_snd] at hsr
    unfold priv_get at hsr
    exact ⟨wrapped_params_lookup Verb.get "repair_run"
        (get_repairs_params "" []) Body.none t st "cluster_name" rfl sr hsr,
      wrapped_params_lookup Verb.get "repair_run"
        (get_repairs_params "" []) Body.none t st "state" rfl sr hsr⟩
  · intro t st sr hsr
    rw [get_schedules_snd] at hsr
    unfold priv_get at hsr
    exact ⟨wrapped_params_lookup Verb.get "repair_schedule"
        (get_schedules_params "" "") Body.none t st "clusterName" rfl sr hsr,
      wrapped_params_lookup Verb.get "repair_schedule"
        (get_schedules_params "" "") Body.none t st "keyspace" rfl sr hsr⟩
  · intro c n o t st sr hsr
    rw [create_cluster_snapshot_snd] at hsr
    unfold priv_post at hsr
    exact ⟨wrapped_params_lookup Verb.post ("/snapshot/cluster/" ++ c)
        (create_cluster_snapshot_params n o "" "" []) (Body.form []) t st
        "keyspace" rfl sr hsr,
      wrapped_params_lookup Verb.post ("/snapshot/cluster/" ++ c)
        (create_cluster_snapshot_params n o "" "" []) (Body.form []) t st
        "tables" rfl sr hsr,
      wrapped_params_lookup Verb.post ("/snapshot/cluster/" ++ c)
        (create_cluster_snapshot_params n o "" "" []) (Body.form []) t st
        "cause" rfl sr hsr⟩

/-- Witness for C8: on a concrete one-response session, the single
request `get_repairs` with default arguments sends has neither a
`cluster_name` nor a `state` query parameter. -/
theorem claim_C8_witness :
    lookupKey defaultRepairsSR.params "cluster_name" = none ∧
    lookupKey defaultRepairsSR.params "state" = none :=
  claim_C8.1 10 okState defaultRepairsSR (List.Mem.head _)

/-- Any request a wrapped GET sends is the GET itself or a login-layer
POST/GET — never a DELETE. -/
theorem wrapped_get_no_delete (q : String) (p : List (String × Prim))
    (t : Nat) (st : St) :
    ∀ sr ∈ newSends st ((priv_get q p t st).2), sr.verb ≠ Verb.delete := by
  intro sr hsr
  unfold priv_get at hsr
  obtain ⟨tail, heq, htail⟩ := authReq_sends_shape Verb.get q p Body.none t st
  rw [heq] at hsr
  rcases List.mem_cons.mp hsr with hsr | hsr
  · subst hsr
    intro hc
    cases hc
  · rcases htail sr hsr with ⟨-, hv | hv⟩ | ⟨-, hv, -, -⟩ <;> rw [hv] <;>
      intro hc <;> cases hc

/-- The state `get_repair` ends in is the state its GET ends in. -/
theorem get_repair_snd (id : String) (t : Nat) (st : St) :
    (get_repair id t st).2 = (priv_get ("repair_run/" ++ id) [] t st).2 := by
  unfold get_repair
  rcases hp : priv_get ("repair_run/" ++ id) [] t st with ⟨res, st1⟩
  cases res with
  | error e => rfl
  | ok r =>
    dsimp only
    cases hj : r.json with
    | error e => rfl
    | ok j => rfl

/-- The state `get_schedule` ends in is the state its GET ends in. -/
theorem get_schedule_snd (id : String) (t : Nat) (st : St) :
    (get_schedule id t st).2 =
      (priv_get ("repair_schedule/" ++ id) [] t st).2 := by
  unfold get_schedule
  rcases hp : priv_get ("repair_schedule/" ++ id) [] t st with ⟨res, st1⟩
  cases res with
  | error e => rfl
  | ok r =>
    dsimp only
    cases hj : r.json with
    | error e => rfl
    | ok j => rfl

/-- C9: `delete_repair` / `delete_schedule` first GET the resource by id
(at that call's own default timeout 10); if that fetch fails the error
propagates unchanged and no DELETE was sent (every request of the failed
call is a GET or a login-layer send); on success the `owner` field of
the decoded JSON becomes the sole `owner` query parameter of the DELETE
that follows, whose outcome is the operation's outcome. -/
theorem claim_C9 :
    (∀ id t st e st1, get_repair id 10 st = (Except.error e, st1) →
      delete_repair id t st = (Except.error e, st1) ∧
      ∀ sr ∈ newSends st st1, sr.verb ≠ Verb.delete) ∧
    (∀ id t st j st1 ow, get_repair id 10 st = (Except.ok j, st1) →
      j.getKey "owner" = Except.ok ow →
      ∃ res st2,
        priv_delete ("repair_run/" ++ id) [("owner", ow)] t st1 =
          (res, st2) ∧
        delete_repair id t st = (res.map (fun _ => ()), st2)) ∧
    (∀ id t st e st1, get_schedule id 10 st = (Except.error e, st1) →
      delete_schedule id t st = (Except.error e, st1) ∧
      ∀ sr ∈ newSends st st1, sr.verb ≠ Verb.delete) ∧
    (∀ id t st j st1 ow, get_schedule id 10 st = (Except.ok j, st1) →
      j.getKey "owner" = Except.ok ow →
      ∃ res st2,
        priv_delete ("repair_schedule/" ++ id) [("owner", ow)] t st1 =
          (res, st2) ∧
        delete_schedule id t st = (res.map (fun _ => ()), st2)) := by
  refine ⟨?_, ?_, ?_, ?_⟩
  · intro id t st e st1 hget
    constructor
    · unfold delete_repair
      rw [hget]
    · intro sr hsr
      have hs1 : st1 = (priv_get ("repair_run/" ++ id) [] 10 st).2 := by
        rw [← get_repair_snd, hget]
      rw [hs1] at hsr
      exact wrapped_get_no_delete ("repair_run/" ++ id) [] 10 st sr hsr
  · intro id t st j st1 ow hget hown
    rcases hdel : priv_delete ("repair_run/" ++ id) [("owner", ow)] t st1
      with ⟨res, st2⟩
    refine ⟨res, st2, rfl, ?_⟩
    unfold delete_repair
    rw [hget]
    dsimp only
    rw [hown]
    dsimp only
    rw [hdel]
    cases res <;> rfl
  · intro id t st e st1 hget
    constructor
    · unfold delete_schedule
      rw [hget]
    · intro sr hsr
      have hs1 : st1 = (priv_get ("repair_schedule/" ++ id) [] 10 st).2 := by
        rw [← get_schedule_snd, hget]
      rw [hs1] at hsr
      exact wrapped_get_no_delete ("repair_schedule/" ++ id) [] 10 st sr hsr
  · intro id t st j st1 ow hget hown
    rcases hdel : priv_delete ("repair_schedule/" ++ id) [("owner", ow)] t st1
      with ⟨res, st2⟩
    refine ⟨res, st2, rfl, ?_⟩
    unfold delete_schedule
    rw [hget]
    dsimp only
    rw [hown]
    dsimp only
    rw [hdel]
    cases res <;> rfl

/-- Witness for C9: on the concrete 404 script, `delete_repair` returns
the GET's error without sending any DELETE; the one request sent is the
GET by id. -/
theorem claim_C9_witness :
    delete_repair "1" 10 getFailState =
      (Except.error (check_err resp404),
       (get_repair "1" 10 getFailState).2) ∧
    getRepairSR.verb ≠ Verb.delete :=
  ⟨(claim_C9.1 "1" 10 getFailState (check_err resp404)
      ((get_repair "1" 10 getFailState).2) rfl).1,
   (claim_C9.1 "1" 10 getFailState (check_err resp404)
      ((get_repair "1" 10 getFailState).2) rfl).2 getRepairSR
      (List.Mem.head _)⟩

/-- C10: only `login` mutates the stored token and the session's
Authorization headers.  A raw verb helper never touches token, headers
or password whatever its outcome; a failed `login` leaves all three
untouched; and a wrapped request that raises without having invoked
`login` (its invocation count unchanged) leaves token, headers and
password exactly as before the call. -/
theorem claim_C10 :
    (∀ v q p b t st,
      ((raw_req v q p b t st).2).token = st.token ∧
      ((raw_req v q p b t st).2).headers = st.headers ∧
      ((raw_req v q p b t st).2).password = st.password) ∧
    (∀ st e st', login st = (Except.error e, st') →
      st'.token = st.token ∧ st'.headers = st.headers ∧
      st'.password = st.password) ∧
    (∀ v q p b t st e st',
      authReq (raw_req v q p b t) st = (Except.error e, st') →
      st'.loginCalls = st.loginCalls →
      st'.token = st.token ∧ st'.headers = st.headers ∧
      st'.password = st.password) := by
  refine ⟨?_, login_frame_err, ?_⟩
  · intro v q p b t st
    obtain ⟨-, -, -, hpw, htok, hhdr, -⟩ := raw_req_shape v q p b t st
    exact ⟨htok, hhdr, hpw⟩
  · intro v q p b t st e st' heq hlc
    rcases authReq_cases (raw_req v q p b t) st with h | ⟨m, st1, hf, h⟩
    · have hr : raw_req v q p b t st = (Except.error e, st') := by
        rw [← h, heq]
      obtain ⟨-, -, -, hpw, htok, hhdr, -⟩ := raw_req_shape v q p b t st
      rw [hr] at hpw htok hhdr
      exact ⟨htok, hhdr, hpw⟩
    · exfalso
      have h1 : st1.loginCalls = st.loginCalls := by
        obtain ⟨-, -, -, -, -, -, hlc1⟩ := raw_req_shape v q p b t st
        rw [hf] at hlc1
        exact hlc1
      obtain ⟨l, -, -, -, -, hlc2, -⟩ := login_shape st1
      rcases h with ⟨e2, st2, hlog, heq2⟩ | ⟨st2, hlog, heq2⟩
      · rw [hlog] at hlc2
        rw [heq] at heq2
        injection heq2 with h1' h2'
        rw [h2'] at hlc
        rw [hlc, h1] at hlc2
        omega
      · rw [hlog] at hlc2
        rw [heq] at heq2
        have hlcf : st'.loginCalls = st2.loginCalls := by
          obtain ⟨-, -, -, -, -, -, hlc3⟩ := raw_req_shape v q p b t st2
          rw [← heq2] at hlc3
          exact hlc3
        rw [hlcf, hlc2, h1] at hlc
        omega

/-- Witness for C10: the concrete transport-fault request leaves token,
headers and password untouched. -/
theorem claim_C10_witness :
    ((authReq (raw_req Verb.get "cluster" [] Body.none 10)
        noScriptState).2).token = noScriptState.token ∧
    ((authReq (raw_req Verb.get "cluster" [] Body.none 10)
        noScriptState).2).headers = noScriptState.headers ∧
    ((authReq (raw_req Verb.get "cluster" [] Body.none 10)
        noScriptState).2).password = noScriptState.password :=
  claim_C10.2.2 Verb.get "cluster" [] Body.none 10 noScriptState
    Err.transport
    ((authReq (raw_req Verb.get "cluster" [] Body.none 10) noScriptState).2)
    rfl rfl

end CassandraReaperApi
